import Mathlib

/-!
Shallow embedding of the Agent Coordination Core of the stx402-agents
repository (src/registry.ts, src/orchestrator.ts, src/index.ts).

Conventions of the embedding:
- JavaScript numbers are modelled as exact arithmetic: integer-valued
  quantities as Nat or Int, the reputation formula over the rationals,
  with Math.round modelled as floor (x + 1/2) (JS rounds halves up).
- Dynamic JSON payloads are an inductive value type; JS truthiness of a
  JSON value is made explicit (jsTruthy).
- The D1 database is a record of lists of rows; SQL queries are modelled
  row by row, with SQLite LIKE implemented as a pattern matcher over
  characters (ASCII case-insensitive, with the percent and underscore
  wildcards).
- Network effects (the Hiro explorer fetch, the remote agent HTTP call,
  Date.now, crypto.randomUUID) are supplied by an explicit environment
  record, so every function of the engine is a pure function of its
  inputs and that environment. The concurrent interleaving of the
  parallel strategy is modelled as application of the per-task effects
  in request order.
-/

/-- Dynamic JSON value crossing the remote-agent boundary. Numbers are
modelled as integers (the payloads the engine inspects never carry
fractional numbers). -/
inductive Json where
  | null : Json
  | bool (b : Bool) : Json
  | num (n : Int) : Json
  | str (s : String) : Json
  | arr (xs : List Json) : Json
  | obj (kvs : List (String × Json)) : Json

/-- JS truthiness of a JSON value: null, false, 0 and the empty string
are falsy, every array and object is truthy. -/
def jsTruthy : Json → Bool
  | Json.null => false
  | Json.bool b => b
  | Json.num n => n != 0
  | Json.str s => s != ""
  | Json.arr _ => true
  | Json.obj _ => true

/-- Fields produced by the JS object spread of a value: objects keep
their fields, arrays and strings spread to index-keyed fields, all
other values spread to nothing. -/
def jsObjFields : Json → List (String × Json)
  | Json.obj kvs => kvs
  | Json.arr xs => (xs.enum).map (fun p => (toString p.1, p.2))
  | Json.str s => (s.data.enum).map (fun p => (toString p.1, Json.str (String.singleton p.2)))
  | _ => []

/-- JS object-literal property write: an existing key keeps its position
and gets the new value, a fresh key is appended at the end. -/
def setKey (kvs : List (String × Json)) (k : String) (v : Json) : List (String × Json) :=
  if kvs.any (fun kv => kv.1 == k) then
    kvs.map (fun kv => if kv.1 == k then (k, v) else kv)
  else
    kvs ++ [(k, v)]

/-- Embedding of the sequential-strategy input merge
\x7b ...task.input, previous_result: previousOutput \x7d from
orchestrator.ts. -/
def mergePrev (input : Json) (prev : Json) : Json :=
  Json.obj (setKey (jsObjFields input) "previous_result" prev)

/-- Two lowercase hex digits of a byte, used for JSON \u escapes. -/
def hex2 (n : Nat) : String :=
  String.mk [Nat.digitChar (n / 16 % 16), Nat.digitChar (n % 16)]

/-- JSON.stringify escaping of one character inside a string literal. -/
def jsonEscapeChar (c : Char) : String :=
  if c = '"' then "\\\""
  else if c = '\\' then "\\\\"
  else if c = '\n' then "\\n"
  else if c = '\t' then "\\t"
  else if c = '\r' then "\\r"
  else if c.toNat = 8 then "\\b"
  else if c.toNat = 12 then "\\f"
  else if c.toNat < 32 then "\\u00" ++ hex2 c.toNat
  else String.singleton c

/-- JSON.stringify escaping of a whole string. -/
def jsonEscape (s : String) : String :=
  String.join (s.data.map jsonEscapeChar)

mutual

/-- Embedding of JSON.stringify on the JSON value type. -/
def stringify : Json → String
  | Json.null => "null"
  | Json.bool true => "true"
  | Json.bool false => "false"
  | Json.num n => toString n
  | Json.str s => "\"" ++ jsonEscape s ++ "\""
  | Json.arr xs => "[" ++ stringifyItems xs ++ "]"
  | Json.obj kvs => "\x7b" ++ stringifyFields kvs ++ "\x7d"

/-- Comma-separated serialization of array elements. -/
def stringifyItems : List Json → String
  | [] => ""
  | [x] => stringify x
  | x :: y :: xs => stringify x ++ "," ++ stringifyItems (y :: xs)

/-- Comma-separated serialization of object fields. -/
def stringifyFields : List (String × Json) → String
  | [] => ""
  | [kv] => "\"" ++ jsonEscape kv.1 ++ "\":" ++ stringify kv.2
  | kv :: kw :: kvs =>
      "\"" ++ jsonEscape kv.1 ++ "\":" ++ stringify kv.2 ++ "," ++ stringifyFields (kw :: kvs)

end

/-- JSON.stringify of a plain string array, as stored in the agents
table for the capabilities and payment_tokens columns. -/
def stringifyStringList (xs : List String) : String :=
  stringify (Json.arr (xs.map Json.str))

/-- Wrap of an integer into the signed 32-bit range, the effect of the
JS bitwise operations in hashObject. -/
def toInt32 (n : Int) : Int :=
  (n + 2 ^ 31) % 2 ^ 32 - 2 ^ 31

/-- One step of the rolling hash of orchestrator.ts hashObject:
hash = ((hash << 5) - hash) + charCode, truncated to 32 bits.
UTF-16 code units are modelled as code points (they coincide on the
payloads at hand, which are in the basic plane). -/
def hashStep (h : Int) (c : Char) : Int :=
  toInt32 (toInt32 (h * 32) - h + c.toNat)

/-- Rolling 32-bit hash of a string, folded left over its characters
starting from 0. -/
def hashString (s : String) : Int :=
  s.data.foldl hashStep 0

/-- JS Number.toString(16) for integers: lowercase hex digits with a
leading minus sign for negative values. -/
def intToHex (n : Int) : String :=
  if n < 0 then "-" ++ String.mk (Nat.toDigits 16 n.natAbs)
  else String.mk (Nat.toDigits 16 n.toNat)

/-- Embedding of hashObject from orchestrator.ts: stringify, roll the
32-bit hash, render in hex. -/
def hashObject (j : Json) : String :=
  intToHex (hashString (stringify j))

/-- JS Math.round on an exact rational: floor (x + 1/2), which rounds
halves toward positive infinity exactly as Math.round does. -/
def jsRound (q : ℚ) : Int :=
  Int.floor (q + 1 / 2)

/-- Row of the reputation table (schema.sql): nonnegative counters,
earnings per token, running average latency, the derived rating and the
last-activity timestamp. -/
structure Reputation where
  agent_id : String
  total_tasks : Nat
  successful_tasks : Nat
  failed_tasks : Nat
  total_earned_stx : Int
  total_earned_sbtc : Int
  avg_response_time_ms : Int
  rating : Int
  last_activity : String
  deriving DecidableEq

/-- The rating formula of updateReputation recomputed from the two
counters alone: round(successRate * 100 * (0.5 + 0.5 * taskWeight)). -/
def ratingOf (successful total : Nat) : Int :=
  jsRound ((successful : ℚ) / (total : ℚ) * 100
    * (1 / 2 + 1 / 2 * min ((total : ℚ) / 100) 1))

/-- Embedding of the row transformation inside updateReputation
(registry.ts, lines 157-177): bump the counters, accrue earnings for
the token used, fold the latency into the running average, and
recompute the rating. -/
def updateReputationRow (current : Reputation) (success : Bool) (paymentAmount : Int)
    (paymentToken : String) (responseTimeMs : Int) (now : String) : Reputation :=
  let newTotal := current.total_tasks + 1
  let newSuccessful := if success then current.successful_tasks + 1 else current.successful_tasks
  let newFailed := if success then current.failed_tasks else current.failed_tasks + 1
  let newEarnedStx := if paymentToken == "STX"
    then current.total_earned_stx + paymentAmount else current.total_earned_stx
  let newEarnedSbtc := if paymentToken == "sBTC"
    then current.total_earned_sbtc + paymentAmount else current.total_earned_sbtc
  let newAvgTime := jsRound
    (((current.avg_response_time_ms : ℚ) * (current.total_tasks : ℚ) + (responseTimeMs : ℚ))
      / (newTotal : ℚ))
  let successRate : ℚ := (newSuccessful : ℚ) / (newTotal : ℚ)
  let taskWeight : ℚ := min ((newTotal : ℚ) / 100) 1
  let newRating := jsRound (successRate * 100 * (1 / 2 + 1 / 2 * taskWeight))
  { agent_id := current.agent_id
    total_tasks := newTotal
    successful_tasks := newSuccessful
    failed_tasks := newFailed
    total_earned_stx := newEarnedStx
    total_earned_sbtc := newEarnedSbtc
    avg_response_time_ms := newAvgTime
    rating := newRating
    last_activity := now }

/-- Embedding of updateReputation (registry.ts): look the row up by
agent id; when it is absent return the store unchanged, otherwise
replace that row by the updated one. -/
def updateReputation (reps : List Reputation) (agentId : String) (success : Bool)
    (paymentAmount : Int) (paymentToken : String) (responseTimeMs : Int)
    (now : String) : List Reputation :=
  match reps.find? (fun r => r.agent_id == agentId) with
  | none => reps
  | some current =>
      reps.map (fun r =>
        if r.agent_id == agentId
        then updateReputationRow current success paymentAmount paymentToken responseTimeMs now
        else r)

/-- SQLite LIKE over character lists: percent matches any sequence,
underscore matches any single character, letters compare ASCII
case-insensitively (the SQLite default). The first argument is an
explicit recursion bound; every step shortens the combined length of
pattern and subject, so any bound above that sum is never exhausted. -/
def likeChars : Nat → List Char → List Char → Bool
  | 0, ps, cs => ps.isEmpty && cs.isEmpty
  | fuel + 1, ps, cs =>
    match ps, cs with
    | [], [] => true
    | '%' :: ps2, cs =>
        likeChars fuel ps2 cs ||
          (match cs with
           | [] => false
           | _ :: cs2 => likeChars fuel ('%' :: ps2) cs2)
    | '_' :: ps2, _ :: cs2 => likeChars fuel ps2 cs2
    | p :: ps2, c :: cs2 => (p.toLower == c.toLower) && likeChars fuel ps2 cs2
    | _, _ => false

/-- SQLite LIKE on strings. -/
def sqlLike (pattern s : String) : Bool :=
  likeChars (pattern.data.length + s.data.length + 1) pattern.data s.data

/-- Row of the agents table (types.ts Agent). -/
structure Agent where
  id : String
  name : String
  owner : String
  endpoint : String
  capabilities : List String
  payment_address : String
  payment_tokens : List String
  created_at : String
  updated_at : String
  deriving DecidableEq

/-- One row of the discovery join: an agent together with its
reputation row. -/
structure AgentRep where
  agent : Agent
  rep : Reputation
  deriving DecidableEq

/-- Discovery filter (types.ts DiscoveryQuery). -/
structure DiscoveryQuery where
  capability : Option String
  payment_token : Option String
  min_rating : Option Int
  limit : Option Nat

/-- The LIKE pattern built by discoverAgents for a capability or token
query value: percent, quote, the raw value, quote, percent. -/
def memberLikePattern (v : String) : String :=
  "%\"" ++ v ++ "\"%"

/-- The WHERE clause of discoverAgents applied to one joined row:
capability and token filters are LIKE matches of the quoted query value
against the JSON-serialized column, the rating filter is an inclusive
lower bound. -/
def matchesQuery (q : DiscoveryQuery) (row : AgentRep) : Bool :=
  (match q.capability with
   | none => true
   | some cap => sqlLike (memberLikePattern cap) (stringifyStringList row.agent.capabilities)) &&
  (match q.payment_token with
   | none => true
   | some tok => sqlLike (memberLikePattern tok) (stringifyStringList row.agent.payment_tokens)) &&
  (match q.min_rating with
   | none => true
   | some m => decide (m ≤ row.rep.rating))

/-- ORDER BY r.rating DESC, r.successful_tasks DESC as a total
preorder on joined rows. -/
def repOrder (x y : AgentRep) : Prop :=
  y.rep.rating < x.rep.rating ∨
    (x.rep.rating = y.rep.rating ∧ y.rep.successful_tasks ≤ x.rep.successful_tasks)

instance : DecidableRel repOrder := fun x y => by
  unfold repOrder; infer_instance

/-- LIMIT parameter: query.limit || 20, so an absent or zero limit
falls back to 20. -/
def limitOf (q : DiscoveryQuery) : Nat :=
  match q.limit with
  | none => 20
  | some 0 => 20
  | some n => n

/-- Embedding of discoverAgents (registry.ts): filter the joined rows,
order by descending rating then descending successful-task count, and
truncate to the limit. -/
def discoverAgents (rows : List AgentRep) (q : DiscoveryQuery) : List AgentRep :=
  ((rows.filter (matchesQuery q)).insertionSort repOrder).take (limitOf q)

/-- Transaction record as reported by the Hiro explorer, restricted to
the fields the two payment gates read. The optional fields model the
optional chaining on tx.contract_call. -/
structure TxRecord where
  tx_status : String
  tx_type : String
  sender_address : String
  contract_id : Option String
  firstArgRepr : Option String

/-- Outcome of the explorer fetch: a non-ok HTTP response, a thrown
transport error, or a transaction record. -/
inductive FetchResult where
  | notOk : FetchResult
  | exnMsg (msg : String) : FetchResult
  | ok (tx : TxRecord) : FetchResult

/-- Result shape of verifyPayment in orchestrator.ts. -/
structure VerifyResult where
  valid : Bool
  sender : Option String
  amount : Option Int
  error : Option String

/-- Txid normalization: prepend 0x unless already present. -/
def normalizeTxid (txid : String) : String :=
  if txid.startsWith "0x" then txid else "0x" ++ txid

/-- Drop the first occurrence of the character u from a string, the
effect of .replace applied with a one-character search string. -/
def removeFirstU (s : String) : String :=
  let rec go : List Char → List Char
    | [] => []
    | c :: cs => if c = 'u' then cs else c :: go cs
  String.mk (go s.data)

/-- JS parseInt on a decimal string: skip leading whitespace, read an
optional sign and then leading digits; none models NaN. -/
def jsParseInt (s : String) : Option Int :=
  let chars := s.data.dropWhile (fun c => c == ' ' || c == '\t' || c == '\n' || c == '\r')
  let signAndDigits : Bool × List Char :=
    match chars with
    | '-' :: rest => (true, rest)
    | '+' :: rest => (false, rest)
    | rest => (false, rest)
  let digits := signAndDigits.2.takeWhile (fun c => c.isDigit)
  if digits.isEmpty then none
  else
    let v : Int := digits.foldl (fun acc c => acc * 10 + (c.toNat - 48 : Int)) 0
    some (if signAndDigits.1 then -v else v)

/-- The amount expression of verifyPayment in orchestrator.ts:
parseInt((args[0].repr with the first u removed) || "0"). -/
def verifyAmount (firstArgRepr : Option String) : Option Int :=
  jsParseInt
    (match firstArgRepr with
     | none => "0"
     | some rep =>
         let t := removeFirstU rep
         if t = "" then "0" else t)

/-- Embedding of verifyPayment from orchestrator.ts (lines 14-41): the
gate used by orchestrate. Rejects a failed fetch, a thrown error, a
transaction whose status is not success, and a transaction that is not
a contract call; any successful contract call is accepted, with no
check of the called contract. -/
def verifyPayment (fetchTx : String → FetchResult) (txid : String) : VerifyResult :=
  match fetchTx (normalizeTxid txid) with
  | FetchResult.notOk =>
      { valid := false, sender := none, amount := none, error := some "Transaction not found" }
  | FetchResult.exnMsg msg =>
      { valid := false, sender := none, amount := none,
        error := some ("Verification failed: " ++ msg) }
  | FetchResult.ok tx =>
      if tx.tx_status != "success" then
        { valid := false, sender := none, amount := none,
          error := some ("Transaction status: " ++ tx.tx_status) }
      else if tx.tx_type != "contract_call" then
        { valid := false, sender := none, amount := none, error := some "Not a contract call" }
      else
        { valid := true, sender := some tx.sender_address,
          amount := verifyAmount tx.firstArgRepr, error := none }

/-- JS String.includes as a substring test. -/
def strIncludes (s sub : String) : Bool :=
  decide (sub.data <:+: s.data)

/-- Result shape of verifyPayment in index.ts. -/
structure VerifyResultIdx where
  valid : Bool
  sender : Option String
  error : Option String

/-- Embedding of verifyPayment from index.ts (lines 398-424): the gate
used by the /register and /orchestrate routes. Rejects a failed fetch,
a thrown error and a non-success status; a contract call is rejected
unless its contract id contains the substring sbtc; every other
transaction type passes. -/
def verifyPaymentIndex (fetchTx : String → FetchResult) (txid : String) : VerifyResultIdx :=
  match fetchTx (normalizeTxid txid) with
  | FetchResult.notOk =>
      { valid := false, sender := none, error := some "Transaction not found" }
  | FetchResult.exnMsg msg =>
      { valid := false, sender := none, error := some ("Verification failed: " ++ msg) }
  | FetchResult.ok tx =>
      if tx.tx_status != "success" then
        { valid := false, sender := none, error := some ("Transaction status: " ++ tx.tx_status) }
      else if tx.tx_type == "contract_call" then
        match tx.contract_id with
        | some cid =>
            if strIncludes cid "sbtc" then
              { valid := true, sender := some tx.sender_address, error := none }
            else
              { valid := false, sender := none, error := some "Not an sBTC transfer" }
        | none =>
            { valid := false, sender := none, error := some "Not an sBTC transfer" }
      else
        { valid := true, sender := some tx.sender_address, error := none }

/-- One requested task of an orchestration request (types.ts). -/
structure TaskReq where
  capability : String
  input : Json
  max_payment : Option Int

/-- Orchestration request: an ordered task list and a strategy tag,
kept as a string exactly as the source compares it. -/
structure OrchestrationRequest where
  tasks : List TaskReq
  strategy : String

/-- Per-task entry of the results array built by orchestrate. -/
structure TaskResult where
  capability : String
  agent_id : String
  agent_name : String
  success : Bool
  data : Option Json
  error : Option String

/-- Result of callAgent in orchestrator.ts. -/
structure CallResult where
  success : Bool
  data : Option Json
  error : Option String
  responseTimeMs : Int

/-- Outcome of the remote agent HTTP POST: a 2xx JSON body, a non-ok
status with its body text, or a thrown transport error. -/
inductive HttpOutcome where
  | ok (body : Json) : HttpOutcome
  | httpErr (text : String) : HttpOutcome
  | exnMsg (msg : String) : HttpOutcome

/-- Row of the tasks audit table (types.ts TaskRecord). -/
structure TaskRecord where
  id : String
  requester_agent_id : Option String
  provider_agent_id : String
  task_type : String
  payment_txid : String
  payment_amount : Int
  payment_token : String
  status : String
  request_hash : String
  response_hash : Option String
  started_at : String
  completed_at : String
  error : Option String
  deriving DecidableEq

/-- The D1 database: the agents, reputation and tasks tables. -/
structure Db where
  agents : List Agent
  reps : List Reputation
  tasks : List TaskRecord

/-- Environment of ambient effects: explorer fetch, remote agent calls
and their measured latency, fresh UUIDs and clock readings indexed by
the count of records written so far, and the elapsed-time reading. -/
structure OrchEnv where
  fetchTx : String → FetchResult
  http : Agent → String → Json → HttpOutcome
  timeMs : Agent → String → Json → Int
  uuid : Nat → String
  nowIso : Nat → String
  repNow : Nat → String
  elapsedMs : Int

/-- Embedding of callAgent (orchestrator.ts lines 44-79). -/
def callAgent (env : OrchEnv) (agent : Agent) (taskType : String) (input : Json) : CallResult :=
  match env.http agent taskType input with
  | HttpOutcome.ok body =>
      { success := true, data := some body, error := none,
        responseTimeMs := env.timeMs agent taskType input }
  | HttpOutcome.httpErr text =>
      { success := false, data := none, error := some text,
        responseTimeMs := env.timeMs agent taskType input }
  | HttpOutcome.exnMsg msg =>
      { success := false, data := none, error := some ("Agent call failed: " ++ msg),
        responseTimeMs := env.timeMs agent taskType input }

/-- The FROM agents JOIN reputation view used by discoverAgents. -/
def joinAgents (db : Db) : List AgentRep :=
  db.agents.filterMap (fun a =>
    (db.reps.find? (fun r => r.agent_id == a.id)).map (fun r => AgentRep.mk a r))

/-- Embedding of findBestAgent (orchestrator.ts lines 82-95):
discoverAgents with limit 1 and min_rating 0, returning the first row
if any. -/
def findBestAgent (db : Db) (capability : String) (paymentToken : String) : Option AgentRep :=
  (discoverAgents (joinAgents db)
    { capability := some capability, payment_token := some paymentToken,
      min_rating := some 0, limit := some 1 }).head?

/-- JS or-with-default on an optional number: task.max_payment || 1000
falls back on the default for an absent or zero value. -/
def jsOrNum (x : Option Int) (d : Int) : Int :=
  match x with
  | none => d
  | some v => if v = 0 then d else v

/-- JS result.error || null: an empty error string is stored as null. -/
def jsOrNullStr (e : Option String) : Option String :=
  match e with
  | none => none
  | some s => if s = "" then none else some s

/-- Append a task record to the audit table (recordTask). -/
def recordTask (db : Db) (t : TaskRecord) : Db :=
  { db with tasks := db.tasks ++ [t] }

/-- The TaskRecord written by the sequential branch of orchestrate
(orchestrator.ts lines 179-193) for an attempted task. -/
def seqTaskRecord (env : OrchEnv) (paymentTxid startIso : String) (k : Nat)
    (task : TaskReq) (ar : AgentRep) (input : Json) (r : CallResult) : TaskRecord :=
  { id := env.uuid k
    requester_agent_id := none
    provider_agent_id := ar.agent.id
    task_type := task.capability
    payment_txid := paymentTxid
    payment_amount := jsOrNum task.max_payment 1000
    payment_token := "STX"
    status := if r.success then "completed" else "failed"
    request_hash := hashObject input
    response_hash :=
      match r.data with
      | some d => if jsTruthy d then some (hashObject d) else none
      | none => none
    started_at := startIso
    completed_at := env.nowIso k
    error := jsOrNullStr r.error }

/-- The sentinel per-task result pushed when no agent matches a
requested capability. -/
def noAgentResult (capability : String) : TaskResult :=
  { capability := capability, agent_id := "none", agent_name := "No agent found",
    success := false, data := none,
    error := some ("No agent found for capability: " ++ capability) }

/-- Sequential strategy loop (orchestrator.ts lines 141-207): one task
at a time, merging a truthy previous output into the next input under
previous_result, updating reputation and writing a task record for
every attempted task, and continuing past tasks with no agent. -/
def seqGo (env : OrchEnv) (paymentTxid startIso : String) :
    Db → Json → Nat → List TaskReq → Db × List TaskResult × Nat
  | db, _, k, [] => (db, [], k)
  | db, prev, k, task :: rest =>
    match findBestAgent db task.capability "STX" with
    | none =>
        let t := seqGo env paymentTxid startIso db prev k rest
        (t.1, noAgentResult task.capability :: t.2.1, t.2.2)
    | some ar =>
        let input := if jsTruthy prev then mergePrev task.input prev else task.input
        let r := callAgent env ar.agent task.capability input
        let db1 : Db := { db with
          reps := updateReputation db.reps ar.agent.id r.success
            (jsOrNum task.max_payment 1000) "STX" r.responseTimeMs (env.repNow k) }
        let db2 := recordTask db1 (seqTaskRecord env paymentTxid startIso k task ar input r)
        let res : TaskResult :=
          { capability := task.capability, agent_id := ar.agent.id,
            agent_name := ar.agent.name, success := r.success,
            data := r.data, error := r.error }
        let prev2 := if r.success then r.data.getD Json.null else prev
        let t := seqGo env paymentTxid startIso db2 prev2 (k + 1) rest
        (t.1, res :: t.2.1, t.2.2)

/-- Parallel strategy (orchestrator.ts lines 208-245): every task is
dispatched with its own input, reputation is updated per attempted
task, and no task record is written. Results keep request order. -/
def parGo (env : OrchEnv) (paymentTxid : String) :
    Db → Nat → List TaskReq → Db × List TaskResult
  | db, _, [] => (db, [])
  | db, k, task :: rest =>
    match findBestAgent db task.capability "STX" with
    | none =>
        let t := parGo env paymentTxid db (k + 1) rest
        (t.1, noAgentResult task.capability :: t.2)
    | some ar =>
        let r := callAgent env ar.agent task.capability task.input
        let db1 : Db := { db with
          reps := updateReputation db.reps ar.agent.id r.success
            (jsOrNum task.max_payment 1000) "STX" r.responseTimeMs (env.repNow k) }
        let res : TaskResult :=
          { capability := task.capability, agent_id := ar.agent.id,
            agent_name := ar.agent.name, success := r.success,
            data := r.data, error := r.error }
        let t := parGo env paymentTxid db1 (k + 1) rest
        (t.1, res :: t.2)

/-- Aggregated outcome of one orchestrate call. -/
structure OrchOutcome where
  success : Bool
  results : List TaskResult
  total_time_ms : Int

/-- Embedding of orchestrate (orchestrator.ts lines 98-282): verify
the payment, dispatch on the strategy string, and aggregate. On a
rejected payment the run terminates at once with one synthetic failed
result and the database untouched. The best_agent branch considers
only the first task and pushes nothing at all when it has no agent. -/
def orchestrate (env : OrchEnv) (db : Db) (request : OrchestrationRequest)
    (paymentTxid : String) (startIso : String) : Db × OrchOutcome :=
  let verification := verifyPayment env.fetchTx paymentTxid
  if verification.valid then
    let step : Db × List TaskResult :=
      if request.strategy == "sequential" then
        let t := seqGo env paymentTxid startIso db Json.null 0 request.tasks
        (t.1, t.2.1)
      else if request.strategy == "parallel" then
        parGo env paymentTxid db 0 request.tasks
      else if request.strategy == "best_agent" then
        match request.tasks.head? with
        | none => (db, [])
        | some task =>
          match findBestAgent db task.capability "STX" with
          | none => (db, [])
          | some ar =>
            let r := callAgent env ar.agent task.capability task.input
            let db1 : Db := { db with
              reps := updateReputation db.reps ar.agent.id r.success
                (jsOrNum task.max_payment 1000) "STX" r.responseTimeMs (env.repNow 0) }
            (db1,
              [{ capability := task.capability, agent_id := ar.agent.id,
                 agent_name := ar.agent.name, success := r.success,
                 data := r.data, error := r.error }])
      else (db, [])
    (step.1,
      { success := step.2.all (fun r => r.success), results := step.2,
        total_time_ms := env.elapsedMs })
  else
    (db,
      { success := false,
        results :=
          [{ capability := "orchestration", agent_id := "orchestrator",
             agent_name := "Orchestrator", success := false, data := none,
             error := verification.error }],
        total_time_ms := env.elapsedMs })

/-- Reputation row created at agent registration (registry.ts lines
52-56 together with the column defaults of schema.sql): zero counters
and earnings, rating seeded at the neutral prior 50. -/
def freshReputation (agentId now : String) : Reputation :=
  { agent_id := agentId, total_tasks := 0, successful_tasks := 0, failed_tasks := 0,
    total_earned_stx := 0, total_earned_sbtc := 0, avg_response_time_ms := 0,
    rating := 50, last_activity := now }

/-- Sample registered agent advertising the price_feed capability. -/
def sampleAgent : Agent :=
  { id := "agent-1", name := "X", owner := "SP1", endpoint := "https://x",
    capabilities := ["price_feed"], payment_address := "SP1",
    payment_tokens := ["STX"], created_at := "t0", updated_at := "t0" }

/-- Sample database holding one agent with a fresh reputation row. -/
def sampleDb : Db :=
  { agents := [sampleAgent], reps := [freshReputation "agent-1" "t0"], tasks := [] }

/-- Database with no registered agents. -/
def emptyDb : Db := { agents := [], reps := [], tasks := [] }

/-- A settled contract-call transaction whose target is not the
configured payment contract. -/
def evilTx : TxRecord :=
  { tx_status := "success", tx_type := "contract_call", sender_address := "SPCALLER",
    contract_id := some "SP000.evil-contract", firstArgRepr := some "u100" }

/-- Environment in which the explorer reports evilTx for every txid and
every remote agent call returns a JSON object. -/
def sampleEnv : OrchEnv :=
  { fetchTx := fun _ => FetchResult.ok evilTx,
    http := fun _ _ _ => HttpOutcome.ok (Json.obj [("price", Json.num 42)]),
    timeMs := fun _ _ _ => 5,
    uuid := fun k => "uuid-" ++ toString k,
    nowIso := fun k => "now-" ++ toString k,
    repNow := fun k => "rnow-" ++ toString k,
    elapsedMs := 7 }

/-- Single price_feed task with no payment ceiling. -/
def bestTask : TaskReq :=
  { capability := "price_feed", input := Json.obj [("token", Json.str "BTC")],
    max_payment := none }

/-- best_agent request for one price_feed task. -/
def bestReq : OrchestrationRequest :=
  { tasks := [bestTask], strategy := "best_agent" }

/-- Agents A and B for the two-task sequential scenarios. -/
def agentA : Agent := { sampleAgent with id := "agent-A", capabilities := ["capA"] }

/-- Agent providing capB. -/
def agentB : Agent := { sampleAgent with id := "agent-B", capabilities := ["capB"] }

/-- Database holding agents A and B with fresh reputation rows. -/
def dbAB : Db :=
  { agents := [agentA, agentB],
    reps := [freshReputation "agent-A" "t0", freshReputation "agent-B" "t0"],
    tasks := [] }

/-- Database holding only agent B. -/
def dbOnlyB : Db :=
  { agents := [agentB], reps := [freshReputation "agent-B" "t0"], tasks := [] }

/-- First task of the sequential scenarios. -/
def taskA : TaskReq :=
  { capability := "capA", input := Json.obj [("a", Json.num 1)], max_payment := none }

/-- Second task of the sequential scenarios. -/
def taskB : TaskReq :=
  { capability := "capB", input := Json.obj [("b", Json.num 2)], max_payment := none }

/-- Sequential request chaining taskA then taskB. -/
def seqReqAB : OrchestrationRequest :=
  { tasks := [taskA, taskB], strategy := "sequential" }

/-- Environment in which agent A resolves successfully to the falsy
JSON value false and every other call returns 1. -/
def falsyEnv : OrchEnv :=
  { sampleEnv with
    http := fun _ cap _ =>
      if cap = "capA" then HttpOutcome.ok (Json.bool false) else HttpOutcome.ok (Json.num 1) }

/-- Environment in which agent A resolves successfully to a (truthy)
JSON object. -/
def truthyEnv : OrchEnv :=
  { sampleEnv with
    http := fun _ cap _ =>
      if cap = "capA" then HttpOutcome.ok (Json.obj [("out", Json.num 9)])
      else HttpOutcome.ok (Json.num 1) }

/-- Joined discovery row whose agent advertises the single capability
ab. -/
def rowAB : AgentRep :=
  { agent := { sampleAgent with id := "agent-2", capabilities := ["ab"] },
    rep := freshReputation "agent-2" "t0" }

/-- Environment whose explorer fetch always fails. -/
def rejectEnv : OrchEnv := { sampleEnv with fetchTx := fun _ => FetchResult.notOk }

/-- Joined discovery row for sampleAgent with its fresh reputation. -/
def bestRow : AgentRep := { agent := sampleAgent, rep := freshReputation "agent-1" "t0" }

/-- Joined discovery row for agent A. -/
def rowA : AgentRep := { agent := agentA, rep := freshReputation "agent-A" "t0" }

/-- Joined discovery row for agent B. -/
def rowB : AgentRep := { agent := agentB, rep := freshReputation "agent-B" "t0" }

/-- The truthy JSON object agent A resolves to under truthyEnv. -/
def dAfix : Json := Json.obj [("out", Json.num 9)]

/-- A transaction identical to evilTx except still pending. -/
def pendingTx : TxRecord := { evilTx with tx_status := "pending" }

/-- Discovery query whose capability value carries the LIKE underscore
wildcard. -/
def qWild : DiscoveryQuery :=
  { capability := some "a_", payment_token := some "STX",
    min_rating := some 0, limit := some 10 }

set_option maxRecDepth 10000

theorem ratingOf_bounds (s t : Nat) (hs : s ≤ t) (ht : 0 < t) :
    0 ≤ ratingOf s t ∧ ratingOf s t ≤ 100 := by
  have htQ : (0 : ℚ) < (t : ℚ) := by exact_mod_cast ht
  have hsQ : (s : ℚ) ≤ (t : ℚ) := by exact_mod_cast hs
  have hdiv0 : (0 : ℚ) ≤ (s : ℚ) / (t : ℚ) := div_nonneg (by positivity) htQ.le
  have hdiv1 : (s : ℚ) / (t : ℚ) ≤ 1 := div_le_one_of_le₀ hsQ htQ.le
  have hm0 : (0 : ℚ) ≤ min ((t : ℚ) / 100) 1 := le_min (by positivity) (by norm_num)
  have hm1 : min ((t : ℚ) / 100) 1 ≤ 1 := min_le_right _ _
  have hq0 : (0 : ℚ) ≤ (s : ℚ) / (t : ℚ) * 100 * (1 / 2 + 1 / 2 * min ((t : ℚ) / 100) 1) := by
    have h1 : (0 : ℚ) ≤ 1 / 2 + 1 / 2 * min ((t : ℚ) / 100) 1 := by linarith
    have h2 : (0 : ℚ) ≤ (s : ℚ) / (t : ℚ) * 100 := by linarith
    exact mul_nonneg h2 h1
  have hq1 : (s : ℚ) / (t : ℚ) * 100 * (1 / 2 + 1 / 2 * min ((t : ℚ) / 100) 1) ≤ 100 := by
    have ha : (s : ℚ) / (t : ℚ) * 100 ≤ 100 := by linarith
    have hb2 : 1 / 2 + 1 / 2 * min ((t : ℚ) / 100) 1 ≤ 1 := by linarith
    have hb0 : (0 : ℚ) ≤ 1 / 2 + 1 / 2 * min ((t : ℚ) / 100) 1 := by linarith
    calc (s : ℚ) / (t : ℚ) * 100 * (1 / 2 + 1 / 2 * min ((t : ℚ) / 100) 1)
        ≤ 100 * 1 := mul_le_mul ha hb2 hb0 (by norm_num)
      _ = 100 := by norm_num
  unfold ratingOf jsRound
  constructor
  · exact Int.le_floor.mpr (by push_cast; linarith)
  · have h3 : Int.floor ((s : ℚ) / (t : ℚ) * 100
        * (1 / 2 + 1 / 2 * min ((t : ℚ) / 100) 1) + 1 / 2) < 101 :=
      Int.floor_lt.mpr (by push_cast; linarith)
    omega

/-- C4: every reputation update stores
rating = round(successRate * 100 * (0.5 + 0.5 * min(totalTasks/100, 1)))
computed from the new counters, the stored rating is in [0, 100], and
recomputing the formula (ratingOf) from the stored counters reproduces
the stored rating exactly. The hypothesis is the counter sanity
successfulTasks ≤ totalTasks, which every system-produced row
satisfies. -/
theorem updateReputation_rating_recompute_bounds (current : Reputation) (success : Bool)
    (amt : Int) (tok : String) (rt : Int) (now : String)
    (h : current.successful_tasks ≤ current.total_tasks) :
    (updateReputationRow current success amt tok rt now).rating =
      ratingOf (updateReputationRow current success amt tok rt now).successful_tasks
        (updateReputationRow current success amt tok rt now).total_tasks ∧
    0 ≤ (updateReputationRow current success amt tok rt now).rating ∧
    (updateReputationRow current success amt tok rt now).rating ≤ 100 := by
  have hs : (updateReputationRow current success amt tok rt now).successful_tasks
      = (if success then current.successful_tasks + 1 else current.successful_tasks) := rfl
  have ht : (updateReputationRow current success amt tok rt now).total_tasks
      = current.total_tasks + 1 := rfl
  have hle : (updateReputationRow current success amt tok rt now).successful_tasks
      ≤ (updateReputationRow current success amt tok rt now).total_tasks := by
    rw [hs, ht]; cases success <;> simp <;> omega
  have hpos : 0 < (updateReputationRow current success amt tok rt now).total_tasks := by
    rw [ht]; omega
  have hb := ratingOf_bounds _ _ hle hpos
  exact ⟨rfl, hb.1, hb.2⟩

/-- Witness for C4 at a fresh reputation row and one success. -/
theorem updateReputation_rating_recompute_bounds_witness :
    (freshReputation "agent-1" "t0").successful_tasks ≤ (freshReputation "agent-1" "t0").total_tasks ∧
    ((updateReputationRow (freshReputation "agent-1" "t0") true 1000 "STX" 5 "t1").rating =
      ratingOf (updateReputationRow (freshReputation "agent-1" "t0") true 1000 "STX" 5 "t1").successful_tasks
        (updateReputationRow (freshReputation "agent-1" "t0") true 1000 "STX" 5 "t1").total_tasks ∧
    0 ≤ (updateReputationRow (freshReputation "agent-1" "t0") true 1000 "STX" 5 "t1").rating ∧
    (updateReputationRow (freshReputation "agent-1" "t0") true 1000 "STX" 5 "t1").rating ≤ 100) :=
  ⟨by decide,
   updateReputation_rating_recompute_bounds (freshReputation "agent-1" "t0") true 1000 "STX" 5 "t1" (by decide)⟩

/-- C5: every reputation update increments totalTasks by exactly one
and exactly one of successfulTasks or failedTasks according to the
success flag, so successfulTasks + failedTasks = totalTasks is
preserved. -/
theorem updateReputation_counter_invariant (current : Reputation) (success : Bool)
    (amt : Int) (tok : String) (rt : Int) (now : String)
    (h : current.successful_tasks + current.failed_tasks = current.total_tasks) :
    (updateReputationRow current success amt tok rt now).total_tasks = current.total_tasks + 1 ∧
    (updateReputationRow current success amt tok rt now).successful_tasks =
      (if success then current.successful_tasks + 1 else current.successful_tasks) ∧
    (updateReputationRow current success amt tok rt now).failed_tasks =
      (if success then current.failed_tasks else current.failed_tasks + 1) ∧
    (updateReputationRow current success amt tok rt now).successful_tasks +
        (updateReputationRow current success amt tok rt now).failed_tasks =
      (updateReputationRow current success amt tok rt now).total_tasks := by
  refine ⟨rfl, rfl, rfl, ?_⟩
  show (if success then current.successful_tasks + 1 else current.successful_tasks) +
      (if success then current.failed_tasks else current.failed_tasks + 1) =
    current.total_tasks + 1
  cases success <;> simp <;> omega

/-- Witness for C5 at a fresh reputation row and one failure. -/
theorem updateReputation_counter_invariant_witness :
    (freshReputation "agent-1" "t0").successful_tasks + (freshReputation "agent-1" "t0").failed_tasks =
      (freshReputation "agent-1" "t0").total_tasks ∧
    ((updateReputationRow (freshReputation "agent-1" "t0") false 1000 "STX" 5 "t1").total_tasks =
      (freshReputation "agent-1" "t0").total_tasks + 1 ∧
    (updateReputationRow (freshReputation "agent-1" "t0") false 1000 "STX" 5 "t1").successful_tasks =
      (if false then (freshReputation "agent-1" "t0").successful_tasks + 1
       else (freshReputation "agent-1" "t0").successful_tasks) ∧
    (updateReputationRow (freshReputation "agent-1" "t0") false 1000 "STX" 5 "t1").failed_tasks =
      (if false then (freshReputation "agent-1" "t0").failed_tasks
       else (freshReputation "agent-1" "t0").failed_tasks + 1) ∧
    (updateReputationRow (freshReputation "agent-1" "t0") false 1000 "STX" 5 "t1").successful_tasks +
        (updateReputationRow (freshReputation "agent-1" "t0") false 1000 "STX" 5 "t1").failed_tasks =
      (updateReputationRow (freshReputation "agent-1" "t0") false 1000 "STX" 5 "t1").total_tasks) :=
  ⟨by decide,
   updateReputation_counter_invariant (freshReputation "agent-1" "t0") false 1000 "STX" 5 "t1" (by decide)⟩

/-- C7: updating a zero-task reputation row with one success gives
taskWeight = 1/100 and a stored rating of exactly 51, because
round(100 * (0.5 + 0.005)) = round(50.5) = 51 under the half-up
rounding of Math.round. -/
theorem first_success_rating_51 :
    min (((1 : Nat) : ℚ) / 100) 1 = 1 / 100 ∧
    jsRound (100 * (1 / 2 + 1 / 2 * (1 / 100))) = 51 ∧
    (updateReputationRow (freshReputation "agent-1" "t0") true 1000 "STX" 5 "t1").rating = 51 ∧
    ratingOf 1 1 = 51 := by
  have h1 : ratingOf 1 1 = 51 := by norm_num [ratingOf, jsRound]
  refine ⟨by norm_num, by norm_num [jsRound], ?_, h1⟩
  show ratingOf 1 1 = 51
  exact h1

/-- C10: a reputation update for an agent id with no reputation row is
a silent no-op: the store is returned unchanged. -/
theorem updateReputation_missing_row_noop (reps : List Reputation) (agentId : String)
    (success : Bool) (amt : Int) (tok : String) (rt : Int) (now : String)
    (h : reps.find? (fun r => r.agent_id == agentId) = none) :
    updateReputation reps agentId success amt tok rt now = reps := by
  unfold updateReputation
  rw [h]

/-- Witness for C10: updating an unknown agent id leaves a one-row
store unchanged. -/
theorem updateReputation_missing_row_noop_witness :
    ([freshReputation "agent-1" "t0"].find? (fun r => r.agent_id == "ghost") = none) ∧
    updateReputation [freshReputation "agent-1" "t0"] "ghost" true 5 "STX" 3 "t1" =
      [freshReputation "agent-1" "t0"] :=
  ⟨rfl, updateReputation_missing_row_noop [freshReputation "agent-1" "t0"] "ghost" true 5 "STX" 3 "t1" rfl⟩

/-- C8: when the payment gate rejects the reference, orchestrate
returns at once with exactly one synthetic failed result carrying the
rejection reason, the overall success flag false, and the database
untouched: no remote call, no reputation update and no task record. -/
theorem orchestrate_rejected_payment_halts (env : OrchEnv) (db : Db)
    (request : OrchestrationRequest) (txid startIso : String)
    (h : (verifyPayment env.fetchTx txid).valid = false) :
    orchestrate env db request txid startIso =
      (db,
        { success := false,
          results := [{ capability := "orchestration", agent_id := "orchestrator",
                        agent_name := "Orchestrator", success := false, data := none,
                        error := (verifyPayment env.fetchTx txid).error }],
          total_time_ms := env.elapsedMs }) := by
  unfold orchestrate
  simp [h]

/-- Witness for C8: a failing explorer fetch rejects the payment and
halts the workflow with the not-found reason. -/
theorem orchestrate_rejected_payment_halts_witness :
    ((verifyPayment rejectEnv.fetchTx "ab").valid = false) ∧
    ((verifyPayment rejectEnv.fetchTx "ab").error = some "Transaction not found") ∧
    orchestrate rejectEnv sampleDb bestReq "ab" "t0" =
      (sampleDb,
        { success := false,
          results := [{ capability := "orchestration", agent_id := "orchestrator",
                        agent_name := "Orchestrator", success := false, data := none,
                        error := (verifyPayment rejectEnv.fetchTx "ab").error }],
          total_time_ms := rejectEnv.elapsedMs }) :=
  ⟨rfl, rfl, orchestrate_rejected_payment_halts rejectEnv sampleDb bestReq "ab" "t0" rfl⟩

theorem seqGo_cons (env : OrchEnv) (p s : String) (db : Db) (prev : Json) (k : Nat)
    (task : TaskReq) (rest : List TaskReq) :
    seqGo env p s db prev k (task :: rest) =
      (match findBestAgent db task.capability "STX" with
       | none =>
           ((seqGo env p s db prev k rest).1,
            noAgentResult task.capability :: (seqGo env p s db prev k rest).2.1,
            (seqGo env p s db prev k rest).2.2)
       | some ar =>
           let input := if jsTruthy prev then mergePrev task.input prev else task.input
           let r := callAgent env ar.agent task.capability input
           let upd := updateReputation db.reps ar.agent.id r.success (jsOrNum task.max_payment 1000) "STX" r.responseTimeMs (env.repNow k)
           let db2 := recordTask { db with reps := upd } (seqTaskRecord env p s k task ar input r)
           let prev2 := if r.success then r.data.getD Json.null else prev
           let t := seqGo env p s db2 prev2 (k + 1) rest
           (t.1,
            { capability := task.capability, agent_id := ar.agent.id,
              agent_name := ar.agent.name, success := r.success,
              data := r.data, error := r.error } :: t.2.1,
            t.2.2)) := rfl

theorem parGo_cons (env : OrchEnv) (p : String) (db : Db) (k : Nat)
    (task : TaskReq) (rest : List TaskReq) :
    parGo env p db k (task :: rest) =
      (match findBestAgent db task.capability "STX" with
       | none =>
           ((parGo env p db (k + 1) rest).1,
            noAgentResult task.capability :: (parGo env p db (k + 1) rest).2)
       | some ar =>
           let r := callAgent env ar.agent task.capability task.input
           let upd := updateReputation db.reps ar.agent.id r.success (jsOrNum task.max_payment 1000) "STX" r.responseTimeMs (env.repNow k)
           let t := parGo env p { db with reps := upd } (k + 1) rest
           (t.1,
            { capability := task.capability, agent_id := ar.agent.id,
              agent_name := ar.agent.name, success := r.success,
              data := r.data, error := r.error } :: t.2)) := rfl

theorem seqGo_cons_none (env : OrchEnv) (p s : String) (db : Db) (prev : Json) (k : Nat)
    (task : TaskReq) (rest : List TaskReq)
    (h : findBestAgent db task.capability "STX" = none) :
    seqGo env p s db prev k (task :: rest) =
      ((seqGo env p s db prev k rest).1,
       noAgentResult task.capability :: (seqGo env p s db prev k rest).2.1,
       (seqGo env p s db prev k rest).2.2) := by
  rw [seqGo_cons, h]

theorem seqGo_cons_some (env : OrchEnv) (p s : String) (db : Db) (prev : Json) (k : Nat)
    (task : TaskReq) (rest : List TaskReq) (ar : AgentRep)
    (h : findBestAgent db task.capability "STX" = some ar) :
    seqGo env p s db prev k (task :: rest) =
      (let input := if jsTruthy prev then mergePrev task.input prev else task.input
       let r := callAgent env ar.agent task.capability input
       let upd := updateReputation db.reps ar.agent.id r.success (jsOrNum task.max_payment 1000) "STX" r.responseTimeMs (env.repNow k)
       let db2 := recordTask { db with reps := upd } (seqTaskRecord env p s k task ar input r)
       let prev2 := if r.success then r.data.getD Json.null else prev
       let t := seqGo env p s db2 prev2 (k + 1) rest
       (t.1,
        { capability := task.capability, agent_id := ar.agent.id,
          agent_name := ar.agent.name, success := r.success,
          data := r.data, error := r.error } :: t.2.1,
        t.2.2)) := by
  rw [seqGo_cons, h]

theorem parGo_cons_none (env : OrchEnv) (p : String) (db : Db) (k : Nat)
    (task : TaskReq) (rest : List TaskReq)
    (h : findBestAgent db task.capability "STX" = none) :
    parGo env p db k (task :: rest) =
      ((parGo env p db (k + 1) rest).1,
       noAgentResult task.capability :: (parGo env p db (k + 1) rest).2) := by
  rw [parGo_cons, h]

theorem parGo_cons_some (env : OrchEnv) (p : String) (db : Db) (k : Nat)
    (task : TaskReq) (rest : List TaskReq) (ar : AgentRep)
    (h : findBestAgent db task.capability "STX" = some ar) :
    parGo env p db k (task :: rest) =
      (let r := callAgent env ar.agent task.capability task.input
       let upd := updateReputation db.reps ar.agent.id r.success (jsOrNum task.max_payment 1000) "STX" r.responseTimeMs (env.repNow k)
       let t := parGo env p { db with reps := upd } (k + 1) rest
       (t.1,
        { capability := task.capability, agent_id := ar.agent.id,
          agent_name := ar.agent.name, success := r.success,
          data := r.data, error := r.error } :: t.2)) := by
  rw [parGo_cons, h]

theorem parGo_preserves_tasks (tasks : List TaskReq) :
    ∀ (env : OrchEnv) (p : String) (db : Db) (k : Nat),
    (parGo env p db k tasks).1.tasks = db.tasks := by
  induction tasks with
  | nil => intro env p db k; rfl
  | cons task rest ih =>
      intro env p db k
      cases h : findBestAgent db task.capability "STX" with
      | none => rw [parGo_cons_none env p db k task rest h]; exact ih env p _ (k + 1)
      | some ar => rw [parGo_cons_some env p db k task rest ar h]; exact ih env p _ (k + 1)

theorem orchestrate_valid_parallel (env : OrchEnv) (db : Db) (request : OrchestrationRequest)
    (txid s : String)
    (h : (verifyPayment env.fetchTx txid).valid = true)
    (hs : request.strategy = "parallel") :
    orchestrate env db request txid s =
      ((parGo env txid db 0 request.tasks).1,
       { success := (parGo env txid db 0 request.tasks).2.all (fun r => r.success),
         results := (parGo env txid db 0 request.tasks).2,
         total_time_ms := env.elapsedMs }) := by
  unfold orchestrate
  simp [h, hs]

theorem orchestrate_valid_sequential (env : OrchEnv) (db : Db) (request : OrchestrationRequest)
    (txid s : String)
    (h : (verifyPayment env.fetchTx txid).valid = true)
    (hs : request.strategy = "sequential") :
    orchestrate env db request txid s =
      ((seqGo env txid s db Json.null 0 request.tasks).1,
       { success := (seqGo env txid s db Json.null 0 request.tasks).2.1.all (fun r => r.success),
         results := (seqGo env txid s db Json.null 0 request.tasks).2.1,
         total_time_ms := env.elapsedMs }) := by
  unfold orchestrate
  simp [h, hs]

theorem orchestrate_valid_best_found (env : OrchEnv) (db : Db) (request : OrchestrationRequest)
    (txid s : String) (task : TaskReq) (rest : List TaskReq) (ar : AgentRep)
    (h : (verifyPayment env.fetchTx txid).valid = true)
    (hs : request.strategy = "best_agent")
    (htasks : request.tasks = task :: rest)
    (hfind : findBestAgent db task.capability "STX" = some ar) :
    orchestrate env db request txid s =
      (let r := callAgent env ar.agent task.capability task.input
       let upd := updateReputation db.reps ar.agent.id r.success (jsOrNum task.max_payment 1000) "STX" r.responseTimeMs (env.repNow 0)
       ({ db with reps := upd },
        { success := r.success,
          results := [{ capability := task.capability, agent_id := ar.agent.id,
                        agent_name := ar.agent.name, success := r.success,
                        data := r.data, error := r.error }],
          total_time_ms := env.elapsedMs })) := by
  unfold orchestrate
  simp [h, hs, htasks, hfind, Bool.and_true]

theorem orchestrate_valid_best_missing (env : OrchEnv) (db : Db) (request : OrchestrationRequest)
    (txid s : String) (task : TaskReq) (rest : List TaskReq)
    (h : (verifyPayment env.fetchTx txid).valid = true)
    (hs : request.strategy = "best_agent")
    (htasks : request.tasks = task :: rest)
    (hfind : findBestAgent db task.capability "STX" = none) :
    orchestrate env db request txid s =
      (db, { success := true, results := [], total_time_ms := env.elapsedMs }) := by
  unfold orchestrate
  simp [h, hs, htasks, hfind]

/-- Counterexample for C1: with a verified payment, the best_agent
strategy attempts the task (one successful result, the reputation
counters of the selected agent move to one total and one successful
task) and yet writes no TaskRecord at all — the tasks table stays
empty. -/
theorem orchestrate_best_agent_writes_no_taskrecord :
    (verifyPayment sampleEnv.fetchTx "ab").valid = true ∧
    ((orchestrate sampleEnv sampleDb bestReq "ab" "t0").2.results.map
      (fun r => (r.agent_id, r.success))) = [("agent-1", true)] ∧
    ((orchestrate sampleEnv sampleDb bestReq "ab" "t0").1.reps.map
      (fun r => (r.agent_id, r.total_tasks, r.successful_tasks))) = [("agent-1", 1, 1)] ∧
    (orchestrate sampleEnv sampleDb bestReq "ab" "t0").1.tasks = [] := by
  exact ⟨by decide, by decide, by decide, by decide⟩

/-- C1 (amended): for every attempted task, after the remote call
resolves the engine updates the reputation of the selected agent with
the success flag, the max_payment ceiling (or the 1000 default when
absent or zero) and the measured latency, under all three strategies;
but a TaskRecord (completed or failed status, request and response
digests, timestamps) is written only by the sequential strategy: the
parallel and best_agent strategies leave the tasks table unchanged. -/
theorem orchestrate_reputation_always_record_only_sequential :
    (∀ (env : OrchEnv) (p : String) (db : Db) (k : Nat) (tasks : List TaskReq),
      (parGo env p db k tasks).1.tasks = db.tasks) ∧
    (∀ (env : OrchEnv) (db : Db) (request : OrchestrationRequest) (txid s : String),
      (verifyPayment env.fetchTx txid).valid = true →
      request.strategy = "parallel" ∨ request.strategy = "best_agent" →
      (orchestrate env db request txid s).1.tasks = db.tasks) ∧
    (∀ (env : OrchEnv) (p s : String) (db : Db) (prev : Json) (k : Nat)
       (task : TaskReq) (ar : AgentRep),
      findBestAgent db task.capability "STX" = some ar →
      (let input := if jsTruthy prev then mergePrev task.input prev else task.input
       let r := callAgent env ar.agent task.capability input
       (seqGo env p s db prev k [task]).1.reps =
         updateReputation db.reps ar.agent.id r.success (jsOrNum task.max_payment 1000) "STX" r.responseTimeMs (env.repNow k) ∧
       (seqGo env p s db prev k [task]).1.tasks =
         db.tasks ++ [seqTaskRecord env p s k task ar input r] ∧
       (seqTaskRecord env p s k task ar input r).status =
         (if r.success then "completed" else "failed") ∧
       (seqTaskRecord env p s k task ar input r).request_hash = hashObject input ∧
       (seqTaskRecord env p s k task ar input r).response_hash =
         (match r.data with
          | some d => if jsTruthy d then some (hashObject d) else none
          | none => none) ∧
       (seqTaskRecord env p s k task ar input r).started_at = s ∧
       (seqTaskRecord env p s k task ar input r).completed_at = env.nowIso k)) ∧
    (∀ (env : OrchEnv) (p : String) (db : Db) (k : Nat) (task : TaskReq) (ar : AgentRep),
      findBestAgent db task.capability "STX" = some ar →
      (let r := callAgent env ar.agent task.capability task.input
       (parGo env p db k [task]).1.reps =
         updateReputation db.reps ar.agent.id r.success (jsOrNum task.max_payment 1000) "STX" r.responseTimeMs (env.repNow k) ∧
       (parGo env p db k [task]).1.tasks = db.tasks)) ∧
    (∀ (env : OrchEnv) (db : Db) (request : OrchestrationRequest) (txid s : String)
       (task : TaskReq) (rest : List TaskReq) (ar : AgentRep),
      (verifyPayment env.fetchTx txid).valid = true →
      request.strategy = "best_agent" →
      request.tasks = task :: rest →
      findBestAgent db task.capability "STX" = some ar →
      (let r := callAgent env ar.agent task.capability task.input
       (orchestrate env db request txid s).1.reps =
         updateReputation db.reps ar.agent.id r.success (jsOrNum task.max_payment 1000) "STX" r.responseTimeMs (env.repNow 0) ∧
       (orchestrate env db request txid s).1.tasks = db.tasks)) := by
  refine ⟨?_, ?_, ?_, ?_, ?_⟩
  · intro env p db k tasks
    exact parGo_preserves_tasks tasks env p db k
  · intro env db request txid s h hstrat
    rcases hstrat with hs | hs
    · rw [orchestrate_valid_parallel env db request txid s h hs]
      exact parGo_preserves_tasks request.tasks env txid db 0
    · cases htasks : request.tasks with
      | nil =>
          unfold orchestrate
          simp [h, hs, htasks]
      | cons task rest =>
          cases hfind : findBestAgent db task.capability "STX" with
          | none =>
              rw [orchestrate_valid_best_missing env db request txid s task rest h hs htasks hfind]
          | some ar =>
              rw [orchestrate_valid_best_found env db request txid s task rest ar h hs htasks hfind]
  · intro env p s db prev k task ar h
    rw [seqGo_cons_some env p s db prev k task [] ar h]
    exact ⟨rfl, rfl, rfl, rfl, rfl, rfl, rfl⟩
  · intro env p db k task ar h
    rw [parGo_cons_some env p db k task [] ar h]
    exact ⟨rfl, rfl⟩
  · intro env db request txid s task rest ar h hs htasks hfind
    rw [orchestrate_valid_best_found env db request txid s task rest ar h hs htasks hfind]
    exact ⟨rfl, rfl⟩

/-- Witness for C1 at a concrete attempted sequential task: the
reputation store is updated for the selected agent and exactly one
record with the stated fields is appended. -/
theorem orchestrate_reputation_always_record_only_sequential_witness :
    findBestAgent sampleDb bestTask.capability "STX" = some bestRow ∧
    ((seqGo sampleEnv "ab" "t0" sampleDb Json.null 0 [bestTask]).1.reps =
       updateReputation sampleDb.reps bestRow.agent.id (callAgent sampleEnv bestRow.agent bestTask.capability bestTask.input).success (jsOrNum bestTask.max_payment 1000) "STX" (callAgent sampleEnv bestRow.agent bestTask.capability bestTask.input).responseTimeMs (sampleEnv.repNow 0) ∧
     (seqGo sampleEnv "ab" "t0" sampleDb Json.null 0 [bestTask]).1.tasks =
       sampleDb.tasks ++ [seqTaskRecord sampleEnv "ab" "t0" 0 bestTask bestRow bestTask.input (callAgent sampleEnv bestRow.agent bestTask.capability bestTask.input)] ∧
     (seqTaskRecord sampleEnv "ab" "t0" 0 bestTask bestRow bestTask.input (callAgent sampleEnv bestRow.agent bestTask.capability bestTask.input)).status =
       (if (callAgent sampleEnv bestRow.agent bestTask.capability bestTask.input).success then "completed" else "failed") ∧
     (seqTaskRecord sampleEnv "ab" "t0" 0 bestTask bestRow bestTask.input (callAgent sampleEnv bestRow.agent bestTask.capability bestTask.input)).request_hash =
       hashObject bestTask.input ∧
     (seqTaskRecord sampleEnv "ab" "t0" 0 bestTask bestRow bestTask.input (callAgent sampleEnv bestRow.agent bestTask.capability bestTask.input)).response_hash =
       (match (callAgent sampleEnv bestRow.agent bestTask.capability bestTask.input).data with
        | some d => if jsTruthy d then some (hashObject d) else none
        | none => none) ∧
     (seqTaskRecord sampleEnv "ab" "t0" 0 bestTask bestRow bestTask.input (callAgent sampleEnv bestRow.agent bestTask.capability bestTask.input)).started_at = "t0" ∧
     (seqTaskRecord sampleEnv "ab" "t0" 0 bestTask bestRow bestTask.input (callAgent sampleEnv bestRow.agent bestTask.capability bestTask.input)).completed_at = sampleEnv.nowIso 0) :=
  ⟨by decide,
   orchestrate_reputation_always_record_only_sequential.2.2.1 sampleEnv "ab" "t0" sampleDb
     Json.null 0 bestTask bestRow (by decide)⟩

/-- Counterexample for C3: with a verified payment and no registered
agent, the best_agent strategy returns an empty results list (no
sentinel entry with agent_id none) and reports overall success. -/
theorem best_agent_missing_agent_silent :
    (verifyPayment sampleEnv.fetchTx "ab").valid = true ∧
    (orchestrate sampleEnv emptyDb bestReq "ab" "t0").2.results.length = 0 ∧
    (orchestrate sampleEnv emptyDb bestReq "ab" "t0").2.success = true := by
  exact ⟨by decide, by decide, by decide⟩

/-- C3 (amended): under the sequential and parallel strategies a task
with no matching agent yields a per-task result with agent_id the
sentinel none, success false and an error string, and the remaining
tasks still run; under the best_agent strategy such a task produces no
result entry at all: the results list is empty, the overall success
flag is vacuously true and the database is untouched. -/
theorem no_agent_surfacing_by_strategy :
    (∀ cap, noAgentResult cap =
      { capability := cap, agent_id := "none", agent_name := "No agent found",
        success := false, data := none,
        error := some ("No agent found for capability: " ++ cap) }) ∧
    (∀ (env : OrchEnv) (p s : String) (db : Db) (prev : Json) (k : Nat)
       (task : TaskReq) (rest : List TaskReq),
      findBestAgent db task.capability "STX" = none →
      seqGo env p s db prev k (task :: rest) =
        ((seqGo env p s db prev k rest).1,
         noAgentResult task.capability :: (seqGo env p s db prev k rest).2.1,
         (seqGo env p s db prev k rest).2.2)) ∧
    (∀ (env : OrchEnv) (p : String) (db : Db) (k : Nat)
       (task : TaskReq) (rest : List TaskReq),
      findBestAgent db task.capability "STX" = none →
      parGo env p db k (task :: rest) =
        ((parGo env p db (k + 1) rest).1,
         noAgentResult task.capability :: (parGo env p db (k + 1) rest).2)) ∧
    (∀ (env : OrchEnv) (db : Db) (request : OrchestrationRequest) (txid s : String)
       (task : TaskReq) (rest : List TaskReq),
      (verifyPayment env.fetchTx txid).valid = true →
      request.strategy = "best_agent" →
      request.tasks = task :: rest →
      findBestAgent db task.capability "STX" = none →
      (orchestrate env db request txid s).2.results = [] ∧
      (orchestrate env db request txid s).2.success = true ∧
      (orchestrate env db request txid s).1 = db) := by
  refine ⟨?_, ?_, ?_, ?_⟩
  · intro cap
    rfl
  · intro env p s db prev k task rest h
    exact seqGo_cons_none env p s db prev k task rest h
  · intro env p db k task rest h
    exact parGo_cons_none env p db k task rest h
  · intro env db request txid s task rest h hs htasks hfind
    rw [orchestrate_valid_best_missing env db request txid s task rest h hs htasks hfind]
    exact ⟨rfl, rfl, rfl⟩

/-- Witness for C3: concrete best_agent run over an empty registry,
and a concrete sequential step over a registry without the requested
capability. -/
theorem no_agent_surfacing_by_strategy_witness :
    findBestAgent emptyDb bestTask.capability "STX" = none ∧
    ((orchestrate sampleEnv emptyDb bestReq "ab" "t0").2.results = [] ∧
     (orchestrate sampleEnv emptyDb bestReq "ab" "t0").2.success = true ∧
     (orchestrate sampleEnv emptyDb bestReq "ab" "t0").1 = emptyDb) ∧
    seqGo truthyEnv "ab" "t0" dbOnlyB Json.null 0 [taskA] =
      ((seqGo truthyEnv "ab" "t0" dbOnlyB Json.null 0 []).1,
       noAgentResult taskA.capability :: (seqGo truthyEnv "ab" "t0" dbOnlyB Json.null 0 []).2.1,
       (seqGo truthyEnv "ab" "t0" dbOnlyB Json.null 0 []).2.2) :=
  ⟨by decide,
   no_agent_surfacing_by_strategy.2.2.2 sampleEnv emptyDb bestReq "ab" "t0" bestTask []
     (by decide) rfl rfl (by decide),
   no_agent_surfacing_by_strategy.2.1 truthyEnv "ab" "t0" dbOnlyB Json.null 0 taskA []
     (by decide)⟩

/-- Counterexample for C2: a settled contract call whose target is not
the configured payment contract (and contains no sbtc substring) is
accepted by the orchestrator gate, and the index gate accepts a settled
transaction that is not a contract call at all. -/
theorem payment_gate_wrong_target_accepted :
    evilTx.tx_status = "success" ∧
    evilTx.tx_type = "contract_call" ∧
    evilTx.contract_id = some "SP000.evil-contract" ∧
    strIncludes "SP000.evil-contract" "sbtc" = false ∧
    (verifyPayment (fun _ => FetchResult.ok evilTx) "ab").valid = true ∧
    (verifyPaymentIndex (fun _ => FetchResult.ok { evilTx with tx_type := "token_transfer" }) "ab").valid = true := by
  exact ⟨by decide, by decide, by decide, by decide, by decide, by decide⟩

/-- C2 (amended): both gates reject a fetched transaction whose status
is not success; the orchestrator gate additionally rejects any
transaction that is not a contract call but accepts every successful
contract call regardless of the called contract; the index gate rejects
a contract call whose contract id does not contain the substring sbtc
(but lets every successful non-contract-call transaction through). -/
theorem payment_gate_rejections :
    (∀ (fetchTx : String → FetchResult) (txid : String) (tx : TxRecord),
      fetchTx (normalizeTxid txid) = FetchResult.ok tx → tx.tx_status ≠ "success" →
      (verifyPayment fetchTx txid).valid = false) ∧
    (∀ (fetchTx : String → FetchResult) (txid : String) (tx : TxRecord),
      fetchTx (normalizeTxid txid) = FetchResult.ok tx → tx.tx_status ≠ "success" →
      (verifyPaymentIndex fetchTx txid).valid = false) ∧
    (∀ (fetchTx : String → FetchResult) (txid : String) (tx : TxRecord),
      fetchTx (normalizeTxid txid) = FetchResult.ok tx → tx.tx_type ≠ "contract_call" →
      (verifyPayment fetchTx txid).valid = false) ∧
    (∀ (fetchTx : String → FetchResult) (txid : String) (tx : TxRecord) (cid : String),
      fetchTx (normalizeTxid txid) = FetchResult.ok tx →
      tx.tx_type = "contract_call" → tx.contract_id = some cid → strIncludes cid "sbtc" = false →
      (verifyPaymentIndex fetchTx txid).valid = false) ∧
    (∀ (fetchTx : String → FetchResult) (txid : String) (tx : TxRecord),
      fetchTx (normalizeTxid txid) = FetchResult.ok tx →
      tx.tx_status = "success" → tx.tx_type = "contract_call" →
      (verifyPayment fetchTx txid).valid = true) := by
  refine ⟨?_, ?_, ?_, ?_, ?_⟩
  · intro f txid tx hf hst
    unfold verifyPayment
    rw [hf]
    simp [bne_iff_ne, hst]
  · intro f txid tx hf hst
    unfold verifyPaymentIndex
    rw [hf]
    simp [bne_iff_ne, hst]
  · intro f txid tx hf hty
    unfold verifyPayment
    rw [hf]
    by_cases hst : tx.tx_status = "success"
    · simp [bne_iff_ne, hst, hty]
    · simp [bne_iff_ne, hst]
  · intro f txid tx cid hf hty hcid hinc
    unfold verifyPaymentIndex
    rw [hf]
    by_cases hst : tx.tx_status = "success"
    · simp [bne_iff_ne, hst, hty, hcid, hinc]
    · simp [bne_iff_ne, hst]
  · intro f txid tx hf hst hty
    unfold verifyPayment
    rw [hf]
    simp [bne_iff_ne, hst, hty]

/-- Witness for C2: a pending transaction is rejected by both gates,
and the settled wrong-target contract call is accepted by the
orchestrator gate. -/
theorem payment_gate_rejections_witness :
    pendingTx.tx_status ≠ "success" ∧
    (verifyPayment (fun _ => FetchResult.ok pendingTx) "ab").valid = false ∧
    (verifyPaymentIndex (fun _ => FetchResult.ok pendingTx) "ab").valid = false ∧
    (verifyPayment (fun _ => FetchResult.ok evilTx) "ab").valid = true :=
  ⟨by decide,
   payment_gate_rejections.1 (fun _ => FetchResult.ok pendingTx) "ab" pendingTx rfl (by decide),
   payment_gate_rejections.2.1 (fun _ => FetchResult.ok pendingTx) "ab" pendingTx rfl (by decide),
   payment_gate_rejections.2.2.2.2 (fun _ => FetchResult.ok evilTx) "ab" evilTx rfl rfl rfl⟩

/-- Counterexample for C6: task A is attempted and succeeds with the
falsy JSON value false; the engine does not merge it, so the record for
task B digests the original input of B, not the merged object the
claim requires. -/
theorem sequential_falsy_output_not_merged :
    ((orchestrate falsyEnv dbAB seqReqAB "ab" "t0").2.results.map
      (fun r => (r.agent_id, r.success))) = [("agent-A", true), ("agent-B", true)] ∧
    (callAgent falsyEnv rowA.agent taskA.capability taskA.input).success = true ∧
    (callAgent falsyEnv rowA.agent taskA.capability taskA.input).data.map stringify = some "false" ∧
    (callAgent falsyEnv rowA.agent taskA.capability taskA.input).data.map jsTruthy = some false ∧
    ((orchestrate falsyEnv dbAB seqReqAB "ab" "t0").1.tasks.map (fun t => t.request_hash)) =
      [hashObject taskA.input, hashObject taskB.input] ∧
    hashObject taskB.input ≠ hashObject (mergePrev taskB.input (Json.bool false)) := by
  exact ⟨by decide, by decide, by decide, by decide, by decide, by decide⟩

/-- C6 (amended): under the sequential strategy with tasks [A, B], if A
is attempted and succeeds with a truthy output then B runs on its
input merged with that output under previous_result; a falsy successful
output is not merged; and if no agent is found for A then B still runs
on its original unmerged input. -/
theorem sequential_merge_behavior :
    (∀ (env : OrchEnv) (db : Db) (txid s : String) (A B : TaskReq) (arA : AgentRep)
       (dA : Json) (arB : AgentRep),
      (verifyPayment env.fetchTx txid).valid = true →
      findBestAgent db A.capability "STX" = some arA →
      (callAgent env arA.agent A.capability A.input).success = true →
      (callAgent env arA.agent A.capability A.input).data = some dA →
      jsTruthy dA = true →
      findBestAgent
        (recordTask
          { db with reps := updateReputation db.reps arA.agent.id (callAgent env arA.agent A.capability A.input).success (jsOrNum A.max_payment 1000) "STX" (callAgent env arA.agent A.capability A.input).responseTimeMs (env.repNow 0) }
          (seqTaskRecord env txid s 0 A arA A.input (callAgent env arA.agent A.capability A.input)))
        B.capability "STX" = some arB →
      ((orchestrate env db { tasks := [A, B], strategy := "sequential" } txid s).1.tasks =
         db.tasks ++
           [seqTaskRecord env txid s 0 A arA A.input (callAgent env arA.agent A.capability A.input),
            seqTaskRecord env txid s 1 B arB (mergePrev B.input dA)
              (callAgent env arB.agent B.capability (mergePrev B.input dA))] ∧
       (seqTaskRecord env txid s 1 B arB (mergePrev B.input dA)
          (callAgent env arB.agent B.capability (mergePrev B.input dA))).request_hash =
         hashObject (mergePrev B.input dA))) ∧
    (∀ (env : OrchEnv) (db : Db) (txid s : String) (A B : TaskReq) (arB : AgentRep),
      (verifyPayment env.fetchTx txid).valid = true →
      findBestAgent db A.capability "STX" = none →
      findBestAgent db B.capability "STX" = some arB →
      ((orchestrate env db { tasks := [A, B], strategy := "sequential" } txid s).2.results =
         [noAgentResult A.capability,
          { capability := B.capability, agent_id := arB.agent.id, agent_name := arB.agent.name,
            success := (callAgent env arB.agent B.capability B.input).success,
            data := (callAgent env arB.agent B.capability B.input).data,
            error := (callAgent env arB.agent B.capability B.input).error }] ∧
       (orchestrate env db { tasks := [A, B], strategy := "sequential" } txid s).1.tasks =
         db.tasks ++ [seqTaskRecord env txid s 0 B arB B.input (callAgent env arB.agent B.capability B.input)])) := by
  constructor
  · intro env db txid s A B arA dA arB h hA hS hD hT hB
    rw [orchestrate_valid_sequential env db _ txid s h rfl]
    rw [seqGo_cons_some env txid s db Json.null 0 A [B] arA hA]
    simp only [jsTruthy, Bool.false_eq_true, if_false, hS, hD, if_true, Option.getD_some]
    simp only [jsTruthy, Bool.false_eq_true, if_false, hS, hD, if_true, Option.getD_some] at hB
    rw [seqGo_cons_some env txid s _ dA 1 B [] arB hB]
    simp only [hT, if_true]
    refine ⟨?_, rfl⟩
    simp only [seqGo, recordTask, List.append_assoc, List.cons_append, List.nil_append]
  · intro env db txid s A B arB h hA hB
    rw [orchestrate_valid_sequential env db _ txid s h rfl]
    rw [seqGo_cons_none env txid s db Json.null 0 A [B] hA]
    rw [seqGo_cons_some env txid s db Json.null 0 B [] arB hB]
    simp only [jsTruthy, Bool.false_eq_true, if_false]
    exact ⟨rfl, rfl⟩

/-- Witness for C6 at a concrete two-task run: agent A resolves to a
truthy object, and the record written for task B digests the merged
input. -/
theorem sequential_merge_behavior_witness :
    findBestAgent dbAB taskA.capability "STX" = some rowA ∧
    (callAgent truthyEnv rowA.agent taskA.capability taskA.input).data = some dAfix ∧
    jsTruthy dAfix = true ∧
    ((orchestrate truthyEnv dbAB seqReqAB "ab" "t0").1.tasks =
       dbAB.tasks ++
         [seqTaskRecord truthyEnv "ab" "t0" 0 taskA rowA taskA.input (callAgent truthyEnv rowA.agent taskA.capability taskA.input),
          seqTaskRecord truthyEnv "ab" "t0" 1 taskB rowB (mergePrev taskB.input dAfix)
            (callAgent truthyEnv rowB.agent taskB.capability (mergePrev taskB.input dAfix))] ∧
     (seqTaskRecord truthyEnv "ab" "t0" 1 taskB rowB (mergePrev taskB.input dAfix)
        (callAgent truthyEnv rowB.agent taskB.capability (mergePrev taskB.input dAfix))).request_hash =
       hashObject (mergePrev taskB.input dAfix)) :=
  ⟨by decide, rfl, by decide,
   sequential_merge_behavior.1 truthyEnv dbAB "ab" "t0" taskA taskB rowA dAfix rowB
     (by decide) (by decide) (by decide) rfl (by decide) (by decide)⟩

/-- Counterexample for C9: the LIKE underscore wildcard in a capability
query matches an agent whose capability set does not contain the
queried string: discover with capability a_ returns the agent whose
only capability is ab. -/
theorem discover_like_wildcard_nonmember :
    discoverAgents [rowAB]
        { capability := some "a_", payment_token := none, min_rating := some 0, limit := some 10 } =
      [rowAB] ∧
    ¬ ("a_" ∈ rowAB.agent.capabilities) := by
  exact ⟨by decide, by decide⟩

/-- C9 (amended): every row returned by discoverAgents satisfies the
inclusive rating lower bound when one is supplied, and its
JSON-serialized capability and token columns match the quoted LIKE
patterns built from the query; the LIKE match is weaker than exact set
membership (wildcards, quote injection and ASCII case folding can admit
non-members), so only the pattern match is guaranteed. -/
theorem discover_filter_guarantees :
    ∀ (rows : List AgentRep) (q : DiscoveryQuery) (row : AgentRep),
    row ∈ discoverAgents rows q →
    ((∀ m, q.min_rating = some m → m ≤ row.rep.rating) ∧
     (∀ cap, q.capability = some cap →
        sqlLike (memberLikePattern cap) (stringifyStringList row.agent.capabilities) = true) ∧
     (∀ tok, q.payment_token = some tok →
        sqlLike (memberLikePattern tok) (stringifyStringList row.agent.payment_tokens) = true)) := by
  intro rows q row hmem
  have h1 : row ∈ (rows.filter (matchesQuery q)).insertionSort repOrder :=
    List.mem_of_mem_take hmem
  have h2 : row ∈ rows.filter (matchesQuery q) :=
    (List.mem_insertionSort repOrder).1 h1
  have h3 : matchesQuery q row = true := List.of_mem_filter h2
  unfold matchesQuery at h3
  simp only [Bool.and_eq_true] at h3
  obtain ⟨⟨hcap, htok⟩, hrat⟩ := h3
  refine ⟨?_, ?_, ?_⟩
  · intro m hm
    rw [hm] at hrat
    exact of_decide_eq_true hrat
  · intro cap hc
    rw [hc] at hcap
    exact hcap
  · intro tok htk
    rw [htk] at htok
    exact htok

/-- Witness for C9 at the wildcard query: the returned row satisfies
the rating bound and both LIKE matches. -/
theorem discover_filter_guarantees_witness :
    rowAB ∈ discoverAgents [rowAB] qWild ∧
    (0 : Int) ≤ rowAB.rep.rating ∧
    sqlLike (memberLikePattern "a_") (stringifyStringList rowAB.agent.capabilities) = true ∧
    sqlLike (memberLikePattern "STX") (stringifyStringList rowAB.agent.payment_tokens) = true :=
  ⟨by decide,
   (discover_filter_guarantees [rowAB] qWild rowAB (by decide)).1 0 rfl,
   (discover_filter_guarantees [rowAB] qWild rowAB (by decide)).2.1 "a_" rfl,
   (discover_filter_guarantees [rowAB] qWild rowAB (by decide)).2.2 "STX" rfl⟩
